import Mathlib

/-!
Verification of the k6 MCP server's process runner and tool facade
(`k6_server.py`) against its specification.

The Python code is shallowly embedded: the filesystem, the environment
variable `K6_BIN`, subprocess launching and byte-stream decoding are
modelled as oracle functions collected in a `World`.  `run_k6_script`
is a literal translation of the Python function; it is instrumented to
additionally return the argument vector passed to the subprocess-launch
operation, when that operation is reached (`none` means the launch
operation was never reached).
-/

namespace K6MCP

/-- The kind of filesystem object a path names: a regular file, a
directory, or anything else (socket, device, ...).  `Path.exists()` in
the source is true exactly when the resolved path names some object,
of any kind. -/
inductive FileKind where
  | file : FileKind
  | dir : FileKind
  | other : FileKind
deriving DecidableEq, Repr

/-- The outcome of a completed child process, as observed through
`asyncio.create_subprocess_exec` + `communicate()`: an exit code and
the captured raw bytes of standard output and standard error. -/
structure ProcResult where
  returncode : Int
  stdoutBytes : List Nat
  stderrBytes : List Nat
deriving DecidableEq, Repr

/-- The ambient effects `run_k6_script` interacts with.
* `resolve p` models `Path(p).resolve()`: make `p` absolute against the
  current working directory and resolve symlinks; `error e` models a
  raised exception whose `str` is `e`.
* `fs p` gives the kind of filesystem object at resolved path `p`, or
  `none` when nothing exists there (so `Path(p).exists()` is `(fs p).isSome`).
* `k6BinEnv` models `os.getenv("K6_BIN")` (`none` when unset).
* `spawn cmd` models launching `cmd` as a child process and awaiting it;
  `error e` models an exception raised by launch or process management.
* `decode bs` models `bytes.decode()`; `error e` models `UnicodeDecodeError`. -/
structure World where
  resolve : String → Except String String
  fs : String → Option FileKind
  k6BinEnv : Option String
  spawn : List String → Except String ProcResult
  decode : List Nat → Except String String

/-- Index of the last occurrence of `c` in `cs` (Python `str.rfind`,
as an `Option` instead of `-1`). -/
def rfindChar (c : Char) : List Char → Option Nat
  | [] => none
  | x :: xs =>
    match rfindChar c xs with
    | some i => some (i + 1)
    | none => if x = c then some 0 else none

/-- Split a character list at every '/' (the components of a POSIX
path string, like splitting the string on "/"). -/
def splitSlash : List Char → List (List Char)
  | [] => [[]]
  | c :: cs =>
    let r := splitSlash cs
    if c = '/' then [] :: r
    else (c :: r.headD []) :: r.tail

/-- `pathlib.PurePath.name` on a resolved (normalized, absolute) POSIX
path: the final path component, `""` for the root. -/
def pathName (p : String) : String :=
  String.mk (((splitSlash p.toList).filter (fun s => s ≠ [])).getLastD [])

/-- `pathlib.PurePath.suffix`: with `name` the final component and `i`
the index of the last dot in it, the suffix is `name[i:]` when
`0 < i < len(name) - 1`, and `""` otherwise.  In particular a name that
is exactly ".js" has suffix `""`, and a trailing dot gives suffix `""`. -/
def pathSuffix (p : String) : String :=
  let name := (pathName p).toList
  match rfindChar '.' name with
  | none => ""
  | some i => if 0 < i ∧ i + 1 < name.length then String.mk (name.drop i) else ""

/-- `Path(p).exists()` in the model. -/
def pathExists (w : World) (p : String) : Bool :=
  (w.fs p).isSome

/-- Shallow embedding of `run_k6_script(script_file, duration, vus)`
from `k6_server.py`.  The returned pair is the string result of the
Python function together with the argument vector handed to
`asyncio.create_subprocess_exec`, or `none` when the launch operation
was never reached.  The `try`/`except Exception` wrapper is embedded by
mapping every oracle `error e` that control reaches to the string
`"Unexpected error: " ++ e`.  The `print` diagnostics have no effect on
the result and are not modelled. -/
def run_k6_script (w : World) (script_file : String) (duration : String) (vus : Int) :
    String × Option (List String) :=
  match w.resolve script_file with
  | .error e => ("Unexpected error: " ++ e, none)
  | .ok script_file_path =>
    if ¬ pathExists w script_file_path then
      ("Error: Script file not found: " ++ script_file, none)
    else if ¬ (pathSuffix script_file_path = ".js") then
      ("Error: Invalid file type. Expected .js file: " ++ script_file, none)
    else
      let k6_bin := w.k6BinEnv.getD "k6"
      match w.resolve k6_bin with
      | .error e => ("Unexpected error: " ++ e, none)
      | .ok k6_bin_path =>
        let cmd := [k6_bin_path, "run", "-d", duration, "-u", toString vus,
                    script_file_path]
        match w.spawn cmd with
        | .error e => ("Unexpected error: " ++ e, some cmd)
        | .ok res =>
          match w.decode res.stdoutBytes with
          | .error e => ("Unexpected error: " ++ e, some cmd)
          | .ok stdout =>
            match w.decode res.stderrBytes with
            | .error e => ("Unexpected error: " ++ e, some cmd)
            | .ok stderr =>
              if res.returncode ≠ 0 then
                ("Error executing k6 test:\n" ++ stderr, some cmd)
              else
                (stdout, some cmd)

/-- The tool `execute_k6_test(script_file, duration="30s", vus=10)`:
a pass-through to `run_k6_script`.  Omitted arguments take the
signature's defaults. -/
def execute_k6_test (w : World) (script_file : String)
    (duration : String := "30s") (vus : Int := 10) :
    String × Option (List String) :=
  run_k6_script w script_file duration vus

/-- The tool `execute_k6_test_with_options(script_file, duration, vus)`
(all arguments required): a pass-through to `run_k6_script`. -/
def execute_k6_test_with_options (w : World) (script_file : String)
    (duration : String) (vus : Int) : String × Option (List String) :=
  run_k6_script w script_file duration vus

/-- A concrete world for evaluating the model: paths resolve to
themselves except the bare name "k6", which resolves against the
current working directory `/home/user`; a few files and one directory
exist under `/tmp`; `K6_BIN` is unset; any spawned process exits 0
writing the bytes of "OK" to stdout and of "BOOM" to stderr; decoding
maps ASCII bytes to their characters. -/
def wDemo : World where
  resolve := fun p => .ok (if p = "k6" then "/home/user/k6" else p)
  fs := fun p =>
    if p = "/tmp/test.js" then some .file
    else if p = "/tmp/test.txt" then some .file
    else if p = "/tmp/test.JS" then some .file
    else if p = "/tmp/.js" then some .file
    else if p = "/tmp/dir.js" then some .dir
    else none
  k6BinEnv := none
  spawn := fun _ => .ok ⟨0, [79, 75], [66, 79, 79, 77]⟩
  decode := fun bs => .ok (String.mk (bs.map Char.ofNat))

/-- Same world as `wDemo` except every spawned process exits 1. -/
def wDemoFail : World where
  resolve := wDemo.resolve
  fs := wDemo.fs
  k6BinEnv := none
  spawn := fun _ => .ok ⟨1, [79, 75], [66, 79, 79, 77]⟩
  decode := wDemo.decode

/-- A world in which path resolution itself raises. -/
def wRaises : World where
  resolve := fun _ => .error "boom"
  fs := fun _ => none
  k6BinEnv := none
  spawn := fun _ => .error "never"
  decode := fun _ => .error "never"

/-- Helper: a resolved path that exists but whose suffix is not ".js"
makes `run_k6_script` return the invalid-file-type error without
reaching the launch operation. -/
theorem run_k6_script_invalid_suffix (w : World) (s d : String) (v : Int)
    (rp : String) (k : FileKind)
    (hres : w.resolve s = .ok rp) (hfs : w.fs rp = some k)
    (hsuf : pathSuffix rp ≠ ".js") :
    run_k6_script w s d v =
      ("Error: Invalid file type. Expected .js file: " ++ s, none) := by
  simp [run_k6_script, pathExists, hres, hfs, hsuf]

/-- C1: if the resolved path of `script_file` names no filesystem
object, `run_k6_script` returns the script-file-not-found error string
naming the missing path, and the subprocess-launch operation is never
reached (second component `none`). -/
theorem missing_script_error_no_spawn (w : World) (s d : String) (v : Int)
    (rp : String) (hres : w.resolve s = .ok rp) (hfs : w.fs rp = none) :
    run_k6_script w s d v = ("Error: Script file not found: " ++ s, none) := by
  simp [run_k6_script, pathExists, hres, hfs]

/-- Witness for C1 at the concrete input "/tmp/missing.js" in `wDemo`. -/
theorem missing_script_error_no_spawn_witness :
    run_k6_script wDemo "/tmp/missing.js" "30s" 10 =
      ("Error: Script file not found: /tmp/missing.js", none) :=
  missing_script_error_no_spawn wDemo "/tmp/missing.js" "30s" 10
    "/tmp/missing.js" rfl rfl

/-- C2: if the resolved path exists (as an object of any kind `k`) but
its suffix is not ".js", `run_k6_script` returns the invalid-file-type
error string and the subprocess-launch operation is never reached. -/
theorem invalid_type_error_no_spawn (w : World) (s d : String) (v : Int)
    (rp : String) (k : FileKind)
    (hres : w.resolve s = .ok rp) (hfs : w.fs rp = some k)
    (hsuf : pathSuffix rp ≠ ".js") :
    run_k6_script w s d v =
      ("Error: Invalid file type. Expected .js file: " ++ s, none) :=
  run_k6_script_invalid_suffix w s d v rp k hres hfs hsuf

/-- Witness for C2 at the concrete input "/tmp/test.txt" in `wDemo`. -/
theorem invalid_type_error_no_spawn_witness :
    run_k6_script wDemo "/tmp/test.txt" "30s" 10 =
      ("Error: Invalid file type. Expected .js file: /tmp/test.txt", none) :=
  invalid_type_error_no_spawn wDemo "/tmp/test.txt" "30s" 10
    "/tmp/test.txt" .file rfl rfl (by decide)

/-- Helper: `String.append` is associative. -/
theorem string_append_assoc (a b c : String) : a ++ b ++ c = a ++ (b ++ c) := by
  apply String.ext
  simp [String.data_append]

/-- Helper: once both validations pass and the binary path resolves,
the launch operation is reached with exactly the argument vector the
source builds: binary, "run", "-d", duration, "-u", decimal rendering
of vus, resolved script path — whatever the spawned process then does. -/
theorem run_k6_script_reaches_spawn (w : World) (s d : String) (v : Int)
    (rp bp : String) (k : FileKind)
    (hres : w.resolve s = .ok rp) (hfs : w.fs rp = some k)
    (hsuf : pathSuffix rp = ".js")
    (hbin : w.resolve (w.k6BinEnv.getD "k6") = .ok bp) :
    (run_k6_script w s d v).2 =
      some [bp, "run", "-d", d, "-u", toString v, rp] := by
  cases hsp : w.spawn [bp, "run", "-d", d, "-u", toString v, rp] with
  | error e => simp [run_k6_script, pathExists, hres, hfs, hsuf, hbin, hsp]
  | ok r =>
    cases hso : w.decode r.stdoutBytes with
    | error e => simp [run_k6_script, pathExists, hres, hfs, hsuf, hbin, hsp, hso]
    | ok out =>
      cases hse : w.decode r.stderrBytes with
      | error e =>
        simp [run_k6_script, pathExists, hres, hfs, hsuf, hbin, hsp, hso, hse]
      | ok errtxt =>
        by_cases hrc : r.returncode = 0 <;>
          simp [run_k6_script, pathExists, hres, hfs, hsuf, hbin, hsp, hso, hse, hrc]

/-- C3: on a valid script path, when the spawned process exits with
code zero, `run_k6_script` returns exactly the decoded standard-output
text, with no modification and no standard-error content. -/
theorem success_returns_stdout (w : World) (s d : String) (v : Int)
    (rp bp : String) (k : FileKind) (r : ProcResult) (out errtxt : String)
    (hres : w.resolve s = .ok rp) (hfs : w.fs rp = some k)
    (hsuf : pathSuffix rp = ".js")
    (hbin : w.resolve (w.k6BinEnv.getD "k6") = .ok bp)
    (hsp : w.spawn [bp, "run", "-d", d, "-u", toString v, rp] = .ok r)
    (hrc : r.returncode = 0)
    (hso : w.decode r.stdoutBytes = .ok out)
    (hse : w.decode r.stderrBytes = .ok errtxt) :
    (run_k6_script w s d v).1 = out := by
  simp [run_k6_script, pathExists, hres, hfs, hsuf, hbin, hsp, hso, hse, hrc]

/-- Witness for C3: in `wDemo` the fake binary exits 0 writing "OK" to
standard output (and "BOOM" to standard error); the result is "OK". -/
theorem success_returns_stdout_witness :
    (run_k6_script wDemo "/tmp/test.js" "30s" 10).1 = "OK" :=
  success_returns_stdout wDemo "/tmp/test.js" "30s" 10 "/tmp/test.js"
    "/home/user/k6" .file ⟨0, [79, 75], [66, 79, 79, 77]⟩ "OK" "BOOM"
    rfl rfl rfl rfl rfl rfl rfl rfl

/-- C4: on a valid script path, when the spawned process exits with a
non-zero code, `run_k6_script` returns the string
"Error executing k6 test:\n" followed by the decoded standard-error
text: a string beginning with the error-identifying prefix "Error" and
embedding standard error, and (whenever standard output does not happen
to coincide with that error string) not the standard-output text. -/
theorem failure_returns_stderr (w : World) (s d : String) (v : Int)
    (rp bp : String) (k : FileKind) (r : ProcResult) (out errtxt : String)
    (hres : w.resolve s = .ok rp) (hfs : w.fs rp = some k)
    (hsuf : pathSuffix rp = ".js")
    (hbin : w.resolve (w.k6BinEnv.getD "k6") = .ok bp)
    (hsp : w.spawn [bp, "run", "-d", d, "-u", toString v, rp] = .ok r)
    (hrc : r.returncode ≠ 0)
    (hso : w.decode r.stdoutBytes = .ok out)
    (hse : w.decode r.stderrBytes = .ok errtxt) :
    (run_k6_script w s d v).1 = "Error executing k6 test:\n" ++ errtxt ∧
    (∃ rest, (run_k6_script w s d v).1 = "Error" ++ rest) ∧
    (out ≠ "Error executing k6 test:\n" ++ errtxt →
      (run_k6_script w s d v).1 ≠ out) := by
  have h1 : (run_k6_script w s d v).1 = "Error executing k6 test:\n" ++ errtxt := by
    simp [run_k6_script, pathExists, hres, hfs, hsuf, hbin, hsp, hso, hse, hrc]
  refine ⟨h1, ⟨" executing k6 test:\n" ++ errtxt, ?_⟩, fun hne => ?_⟩
  · rw [h1, ← string_append_assoc]
    rfl
  · rw [h1]
    exact fun hc => hne hc.symm

/-- Witness for C4: in `wDemoFail` the fake binary exits 1 writing
"BOOM" to standard error and "OK" to standard output; the result is
the error string embedding "BOOM", and is not "OK". -/
theorem failure_returns_stderr_witness :
    (run_k6_script wDemoFail "/tmp/test.js" "30s" 10).1 =
      "Error executing k6 test:\n" ++ "BOOM" ∧
    (run_k6_script wDemoFail "/tmp/test.js" "30s" 10).1 ≠ "OK" := by
  have h := failure_returns_stderr wDemoFail "/tmp/test.js" "30s" 10 "/tmp/test.js"
    "/home/user/k6" .file ⟨1, [79, 75], [66, 79, 79, 77]⟩ "OK" "BOOM"
    rfl rfl rfl rfl rfl (by decide) rfl rfl
  exact ⟨h.1, h.2.2 (by decide)⟩

/-- C5: for every validated input triple the argument vector is exactly
[resolved binary path, "run", "-d", duration, "-u", decimal rendering
of vus, resolved script path], in that order. -/
theorem cmd_vector_exact (w : World) (s d : String) (v : Int)
    (rp bp : String) (k : FileKind)
    (hres : w.resolve s = .ok rp) (hfs : w.fs rp = some k)
    (hsuf : pathSuffix rp = ".js")
    (hbin : w.resolve (w.k6BinEnv.getD "k6") = .ok bp) :
    (run_k6_script w s d v).2 =
      some [bp, "run", "-d", d, "-u", toString v, rp] :=
  run_k6_script_reaches_spawn w s d v rp bp k hres hfs hsuf hbin

/-- Witness for C5 at the spec's concrete input ("/tmp/test.js", "1m", 5)
in `wDemo`, where the binary resolves to "/home/user/k6": the vector is
["/home/user/k6", "run", "-d", "1m", "-u", "5", "/tmp/test.js"]. -/
theorem cmd_vector_exact_witness :
    (run_k6_script wDemo "/tmp/test.js" "1m" 5).2 =
      some ["/home/user/k6", "run", "-d", "1m", "-u", "5", "/tmp/test.js"] :=
  cmd_vector_exact wDemo "/tmp/test.js" "1m" 5 "/tmp/test.js" "/home/user/k6"
    .file rfl rfl rfl rfl

/-- C6: the facade operations are pure pass-throughs: `execute_k6_test`
called with only a script path coincides with
`execute_k6_test_with_options` at duration "30s" and vus 10 (its
signature defaults), and on every argument triple both operations
return `run_k6_script`'s result unchanged. -/
theorem facade_pass_through :
    (∀ (w : World) (s : String),
        execute_k6_test w s = execute_k6_test_with_options w s "30s" 10) ∧
    (∀ (w : World) (s d : String) (v : Int),
        execute_k6_test w s d v = run_k6_script w s d v ∧
        execute_k6_test_with_options w s d v = run_k6_script w s d v) :=
  ⟨fun _ _ => rfl, fun _ _ _ _ => ⟨rfl, rfl⟩⟩

/-- C7: `run_k6_script` is a total function into strings (so no failure
ever propagates to its caller), and every exception any ambient
operation raises — path resolution of the script, path resolution of
the binary, process launch or management, decoding of either captured
stream — is converted to the string "Unexpected error: " followed by
the failure's description. -/
theorem run_k6_script_converts_exceptions (w : World) (s d : String) (v : Int)
    (e : String) :
    (w.resolve s = .error e →
        run_k6_script w s d v = ("Unexpected error: " ++ e, none)) ∧
    (∀ rp k, w.resolve s = .ok rp → w.fs rp = some k → pathSuffix rp = ".js" →
        w.resolve (w.k6BinEnv.getD "k6") = .error e →
        run_k6_script w s d v = ("Unexpected error: " ++ e, none)) ∧
    (∀ rp k bp, w.resolve s = .ok rp → w.fs rp = some k →
        pathSuffix rp = ".js" → w.resolve (w.k6BinEnv.getD "k6") = .ok bp →
        w.spawn [bp, "run", "-d", d, "-u", toString v, rp] = .error e →
        run_k6_script w s d v = ("Unexpected error: " ++ e,
          some [bp, "run", "-d", d, "-u", toString v, rp])) ∧
    (∀ rp k bp r, w.resolve s = .ok rp → w.fs rp = some k →
        pathSuffix rp = ".js" → w.resolve (w.k6BinEnv.getD "k6") = .ok bp →
        w.spawn [bp, "run", "-d", d, "-u", toString v, rp] = .ok r →
        w.decode r.stdoutBytes = .error e →
        run_k6_script w s d v = ("Unexpected error: " ++ e,
          some [bp, "run", "-d", d, "-u", toString v, rp])) ∧
    (∀ rp k bp r out, w.resolve s = .ok rp → w.fs rp = some k →
        pathSuffix rp = ".js" → w.resolve (w.k6BinEnv.getD "k6") = .ok bp →
        w.spawn [bp, "run", "-d", d, "-u", toString v, rp] = .ok r →
        w.decode r.stdoutBytes = .ok out → w.decode r.stderrBytes = .error e →
        run_k6_script w s d v = ("Unexpected error: " ++ e,
          some [bp, "run", "-d", d, "-u", toString v, rp])) := by
  refine ⟨fun hres => ?_, fun rp k hres hfs hsuf hbin => ?_,
    fun rp k bp hres hfs hsuf hbin hsp => ?_,
    fun rp k bp r hres hfs hsuf hbin hsp hso => ?_,
    fun rp k bp r out hres hfs hsuf hbin hsp hso hse => ?_⟩
  · simp [run_k6_script, hres]
  · simp [run_k6_script, pathExists, hres, hfs, hsuf, hbin]
  · simp [run_k6_script, pathExists, hres, hfs, hsuf, hbin, hsp]
  · simp [run_k6_script, pathExists, hres, hfs, hsuf, hbin, hsp, hso]
  · simp [run_k6_script, pathExists, hres, hfs, hsuf, hbin, hsp, hso, hse]

/-- Witness for C7: in `wRaises` path resolution raises "boom" and the
result is the unexpected-error string. -/
theorem run_k6_script_converts_exceptions_witness :
    run_k6_script wRaises "/tmp/test.js" "30s" 10 =
      ("Unexpected error: boom", none) :=
  (run_k6_script_converts_exceptions wRaises "/tmp/test.js" "30s" 10 "boom").1 rfl

/-- Spec-side definition for C8, following the spec's words: when the
binary-location setting `K6_BIN` is unset, the external binary is
located by resolving the bare conventional name "k6" via the platform's
standard executable search path — modelled as an arbitrary lookup
function `searchExec` from bare names to the absolute path the search
yields — so the head of every argument vector handed to the launch
operation is `searchExec "k6"`, for every platform lookup function. -/
def binaryLocatedViaSearchPath : Prop :=
  ∀ (w : World) (searchExec : String → String) (s d : String) (v : Int)
    (cmd : List String),
    w.k6BinEnv = none →
    (run_k6_script w s d v).2 = some cmd →
    cmd.head? = some (searchExec "k6")

/-- C8 counterexample: the source computes the binary path as
`Path("k6").resolve()` — filesystem resolution of "k6" against the
current working directory — and never consults the executable search
path.  In `wDemo`, where working-directory resolution of "k6" gives
"/home/user/k6", a platform whose executable search yields
"/usr/bin/k6" contradicts the claim at the valid input
("/tmp/test.js", "30s", 10). -/
theorem binaryLocatedViaSearchPath_false : ¬ binaryLocatedViaSearchPath := by
  intro h
  have hcmd : (run_k6_script wDemo "/tmp/test.js" "30s" 10).2 =
      some ["/home/user/k6", "run", "-d", "30s", "-u", "10", "/tmp/test.js"] :=
    run_k6_script_reaches_spawn wDemo "/tmp/test.js" "30s" 10 "/tmp/test.js"
      "/home/user/k6" .file rfl rfl rfl rfl
  have hh := h wDemo (fun _ => "/usr/bin/k6") "/tmp/test.js" "30s" 10
    ["/home/user/k6", "run", "-d", "30s", "-u", "10", "/tmp/test.js"] rfl hcmd
  simp at hh

/-- C8 amended: when `K6_BIN` is unset, the binary invoked is the bare
name "k6" made absolute by standard filesystem path resolution (against
the current working directory, as `Path("k6").resolve()` does), not by
a search of the executable path: the head of the spawned argument
vector is exactly the filesystem resolution of "k6". -/
theorem k6_default_binary_resolved_against_cwd (w : World) (s d : String)
    (v : Int) (rp bp : String) (k : FileKind)
    (henv : w.k6BinEnv = none)
    (hres : w.resolve s = .ok rp) (hfs : w.fs rp = some k)
    (hsuf : pathSuffix rp = ".js") (hbin : w.resolve "k6" = .ok bp) :
    ∀ cmd, (run_k6_script w s d v).2 = some cmd → cmd.head? = some bp := by
  intro cmd hcmd
  have hbin' : w.resolve (w.k6BinEnv.getD "k6") = .ok bp := by
    rw [henv]
    exact hbin
  have h := run_k6_script_reaches_spawn w s d v rp bp k hres hfs hsuf hbin'
  rw [h] at hcmd
  cases hcmd
  rfl

/-- Witness for C8's amended claim in `wDemo`: the head of the spawned
vector is "/home/user/k6", the working-directory resolution of "k6". -/
theorem k6_default_binary_resolved_against_cwd_witness :
    ["/home/user/k6", "run", "-d", "30s", "-u", "10",
      "/tmp/test.js"].head? = some "/home/user/k6" :=
  k6_default_binary_resolved_against_cwd wDemo "/tmp/test.js" "30s" 10
    "/tmp/test.js" "/home/user/k6" .file rfl rfl rfl rfl rfl
    ["/home/user/k6", "run", "-d", "30s", "-u", "10", "/tmp/test.js"]
    (run_k6_script_reaches_spawn wDemo "/tmp/test.js" "30s" 10 "/tmp/test.js"
      "/home/user/k6" .file rfl rfl rfl rfl)

/-- C9: the extension check compares the resolved path's pathlib
suffix against ".js" exactly and case-sensitively: every existing path
whose suffix differs (in particular "/tmp/test.JS", whose suffix is
".JS") is rejected with the invalid-file-type error and no launch, and
a file whose entire name is ".js" has empty suffix under the path
library's convention and is likewise rejected. -/
theorem suffix_check_exact_case_sensitive :
    (∀ (w : World) (s d : String) (v : Int) (rp : String) (k : FileKind),
        w.resolve s = .ok rp → w.fs rp = some k → pathSuffix rp ≠ ".js" →
        run_k6_script w s d v =
          ("Error: Invalid file type. Expected .js file: " ++ s, none)) ∧
    pathSuffix "/tmp/test.JS" = ".JS" ∧
    pathName "/tmp/.js" = ".js" ∧
    pathSuffix "/tmp/.js" = "" :=
  ⟨fun w s d v rp k hres hfs hsuf =>
      run_k6_script_invalid_suffix w s d v rp k hres hfs hsuf,
    by decide, by decide, by decide⟩

/-- Witness for C9 at the concrete existing paths "/tmp/test.JS" (case
difference) and "/tmp/.js" (whole name is ".js") in `wDemo`. -/
theorem suffix_check_exact_case_sensitive_witness :
    run_k6_script wDemo "/tmp/test.JS" "30s" 10 =
      ("Error: Invalid file type. Expected .js file: /tmp/test.JS", none) ∧
    run_k6_script wDemo "/tmp/.js" "30s" 10 =
      ("Error: Invalid file type. Expected .js file: /tmp/.js", none) :=
  ⟨suffix_check_exact_case_sensitive.1 wDemo "/tmp/test.JS" "30s" 10
      "/tmp/test.JS" .file rfl rfl (by decide),
    suffix_check_exact_case_sensitive.1 wDemo "/tmp/.js" "30s" 10
      "/tmp/.js" .file rfl rfl (by decide)⟩

/-- C10: validation never asks whether the path is a regular file: an
existing directory whose name ends in ".js" passes both checks and the
child process is launched with that directory as the script argument
(the last element of the vector). -/
theorem directory_script_reaches_spawn (w : World) (s d : String) (v : Int)
    (rp bp : String)
    (hres : w.resolve s = .ok rp) (hfs : w.fs rp = some .dir)
    (hsuf : pathSuffix rp = ".js")
    (hbin : w.resolve (w.k6BinEnv.getD "k6") = .ok bp) :
    (run_k6_script w s d v).2 =
      some [bp, "run", "-d", d, "-u", toString v, rp] :=
  run_k6_script_reaches_spawn w s d v rp bp .dir hres hfs hsuf hbin

/-- Witness for C10: "/tmp/dir.js" is a directory in `wDemo`, and the
launch operation receives it as the script argument. -/
theorem directory_script_reaches_spawn_witness :
    (run_k6_script wDemo "/tmp/dir.js" "30s" 10).2 =
      some ["/home/user/k6", "run", "-d", "30s", "-u", "10", "/tmp/dir.js"] :=
  directory_script_reaches_spawn wDemo "/tmp/dir.js" "30s" 10 "/tmp/dir.js"
    "/home/user/k6" rfl rfl rfl rfl

end K6MCP
